import Mathlib

/-!
Shallow embedding of `synapse/handlers/cas_handler.py` (the CAS SSO handler):
the service-URL builder, the CAS ticket validator and XML-response parser,
and the identity-mapping / dispatch stage, together with theorems settling
the specification claims about them.

Python strings are modelled as `String` (with character-list operations used
where kernel reduction is needed), Python `Optional[str]` as `Option String`,
Python dicts as insertion-ordered association lists with unique keys, and the
already-parsed XML tree (the result of `ET.fromstring`) as an inductive tree.
-/

set_option autoImplicit false

/-- Python `s.endswith(suffix)`. -/
def endswith (s suffix : String) : Bool :=
  suffix.data.isSuffixOf s.data

/-- Python `c in s` for a single character `c`. -/
def containsChar (c : Char) (s : String) : Bool :=
  s.data.contains c

/-- Python `str.split(sep)` for a one-character separator `sep`: splits at every
occurrence of the separator, keeping empty fragments, so the result always has
one more element than there are separator occurrences. -/
def splitOnChar (c : Char) : List Char → List (List Char)
  | [] => [[]]
  | x :: xs =>
    match splitOnChar c xs with
    | [] => [[x]]
    | r :: rs => if x == c then [] :: r :: rs else (x :: r) :: rs

/-- Lines 145–147 of `cas_handler.py` on the character list: if the tag contains
`'}'` the stored key is `tag.split("}")[1]`, otherwise the tag itself. -/
def stripTagChars (cs : List Char) : List Char :=
  if cs.contains '}' then (splitOnChar '}' cs).getD 1 [] else cs

/-- The namespace-stripping of attribute tags performed by `_parse_cas_response`
(lines 145–147), lifted to `String`. -/
def stripTag (tag : String) : String :=
  String.mk (stripTagChars tag.data)

/-- Modelled from the spec: the spec's reading of the namespace-strip, "return
the substring after the last `}` or the whole string if absent".  Stated from
the spec's words, for comparison with `stripTag`. -/
def localNameAfterLastBrace (tag : String) : String :=
  String.mk ((tag.data.reverse.takeWhile (fun d => d != '}')).reverse)

/-- Attribute maps: Python `Dict[str, Optional[str]]`, as an insertion-ordered
association list whose keys are kept unique by `dictInsert`. -/
abbrev AttrMap := List (String × Option String)

/-- Python `k in d`. -/
def dictMem (m : AttrMap) (k : String) : Bool :=
  m.any (fun p => p.1 == k)

/-- Python `d.get(k)` distinguishing absence (`none`) from a stored value. -/
def dictGet? (m : AttrMap) (k : String) : Option (Option String) :=
  (m.find? (fun p => p.1 == k)).map (fun p => p.2)

/-- Python `d[k] = v`: overwrite in place when the key exists, else append. -/
def dictInsert (m : AttrMap) (k : String) (v : Option String) : AttrMap :=
  if dictMem m k then m.map (fun p => if p.1 == k then (k, v) else p)
  else m ++ [(k, v)]

/-- Python `d.pop(k, None)`: return the stored value (or `None` when absent)
together with the dictionary with the key removed. -/
def dictPop (m : AttrMap) (k : String) : Option String × AttrMap :=
  match dictGet? m k with
  | none => (none, m)
  | some v => (v, m.filter (fun p => !(p.1 == k)))

/-- An XML element as produced by `ET.fromstring`: a (namespace-expanded) tag,
optional text content, and child elements. -/
inductive Xml where
  | elem (tag : String) (text : Option String) (children : List Xml)

def Xml.tag : Xml → String
  | .elem t _ _ => t

def Xml.text : Xml → Option String
  | .elem _ t _ => t

def Xml.children : Xml → List Xml
  | .elem _ _ c => c

/-- The three `LoginError` outcomes of `_parse_cas_response` / the
required-attribute loop of `_validate_ticket`. -/
inductive CasError where
  | invalidResponse
  | unsuccessful
  | unauthorized
deriving DecidableEq

/-- The inner loop of lines 139–148: every child of an `attributes` element is
stored under its namespace-stripped tag, later entries overwriting earlier
ones. -/
def collectAttributes (m : AttrMap) (attrElems : List Xml) : AttrMap :=
  attrElems.foldl (fun m a => dictInsert m (stripTag a.tag) a.text) m

/-- One iteration of the loop over `root[0]` (lines 136–148): a child whose tag
ends in `user` updates the user with its text, a child whose tag ends in
`attributes` contributes its children to the attribute map. -/
def scanChild (acc : Option String × AttrMap) (child : Xml) : Option String × AttrMap :=
  let acc1 := if endswith child.tag "user" then (child.text, acc.2) else acc
  if endswith child.tag "attributes" then (acc1.1, collectAttributes acc1.2 child.children)
  else acc1

/-- `_parse_cas_response` (lines 129–158) on an already-parsed XML tree.
A root whose tag does not end in `serviceResponse`, a root with no child
(`root[0]` raises `IndexError`, caught by the `except` clause), or a missing or
text-less `user` element all become the caught-exception `LoginError`
("Invalid CAS response"); only afterwards is a non-`authenticationSuccess`
first child reported ("Unsuccessful CAS response"). -/
def parse_cas_response (root : Xml) : Except CasError (String × AttrMap) :=
  if !(endswith root.tag "serviceResponse") then .error .invalidResponse
  else
    match root.children with
    | [] => .error .invalidResponse
    | first :: _ =>
      let success := endswith first.tag "authenticationSuccess"
      let scanned := first.children.foldl scanChild (none, [])
      match scanned.1 with
      | none => .error .invalidResponse
      | some u => if !success then .error .unsuccessful else .ok (u, scanned.2)

/-- The read-only CAS configuration consumed by the handler. -/
structure CasConfig where
  cas_server_url : String
  cas_service_url : String
  cas_displayname_attribute : String
  cas_required_attributes : List (String × Option String)

/-- One required-attribute check of lines 103–113: absent key fails; with a
non-null expected value, the stored value must equal it exactly. -/
def requiredAttributeOk (attrs : AttrMap) (k : String) (rv : Option String) : Bool :=
  match dictGet? attrs k with
  | none => false
  | some actual =>
    match rv with
    | none => true
    | some r => actual == some r

/-- The required-attribute loop of lines 103–113 over the attribute map it is
given: `false` means the loop raises 401 Unauthorized. -/
def checkRequired (policy : List (String × Option String)) (attrs : AttrMap) : Bool :=
  policy.all (fun p => requiredAttributeOk attrs p.1 p.2)

/-- Lines 100–115 of `_validate_ticket`, after the body has been obtained:
parse, pop the display-name attribute out of the attribute map, then run the
required-attribute loop on the popped map.  `none` stands for a body that
`ET.fromstring` rejects. -/
def validateFromBody (cfg : CasConfig) (body : Option Xml) :
    Except CasError (String × Option String) :=
  match body with
  | none => .error .invalidResponse
  | some root =>
    match parse_cas_response root with
    | .error e => .error e
    | .ok ua =>
      let popped := dictPop ua.2 cfg.cas_displayname_attribute
      if checkRequired cfg.cas_required_attributes popped.2 then .ok (ua.1, popped.1)
      else .error .unauthorized

/-- Modelled from the spec: the variant of lines 100–115 the spec describes,
with the required-attribute checks evaluated against the snapshot taken before
the display-name pop.  Stated from the spec's words, for comparison with
`validateFromBody`. -/
def validateFromBodySpecSnapshot (cfg : CasConfig) (body : Option Xml) :
    Except CasError (String × Option String) :=
  match body with
  | none => .error .invalidResponse
  | some root =>
    match parse_cas_response root with
    | .error e => .error e
    | .ok ua =>
      let popped := dictPop ua.2 cfg.cas_displayname_attribute
      if checkRequired cfg.cas_required_attributes ua.2 then .ok (ua.1, popped.1)
      else .error .unauthorized

/-- The outcome of `self._http_client.get_raw` as observed by `_validate_ticket`
(lines 93–98).  `closedEarly` models Twisted's `PartialDownloadError`, a
connection closed after delivering a body: the error object still carries the
body (`pde.response`).  Any other failure is a plain transport error.  The body
is the result of the later `ET.fromstring`: `none` when the bytes are not
well-formed XML. -/
inductive FetchResult where
  | success (body : Option Xml)
  | closedEarly (body : Option Xml)
  | transportFailure (err : Nat)

/-- The `try`/`except PartialDownloadError` of lines 93–98: the body carried by
the early-close error is used as the response body; other failures propagate. -/
def bodyOfFetch : FetchResult → Except Nat (Option Xml)
  | .success b => .ok b
  | .closedEarly b => .ok b
  | .transportFailure e => .error e

/-- A `_validate_ticket` failure: a propagated transport error or a
`LoginError`. -/
inductive ValidateError where
  | transport (e : Nat)
  | cas (e : CasError)
deriving DecidableEq

/-- `_validate_ticket` (lines 77–115) as a function of the fetch outcome:
resolve the body (tolerating the early-close error), then parse, pop the
display name and enforce the required-attribute policy. -/
def validate_ticket (cfg : CasConfig) (fetch : FetchResult) :
    Except ValidateError (String × Option String) :=
  match bodyOfFetch fetch with
  | .error e => .error (.transport e)
  | .ok b =>
    match validateFromBody cfg b with
    | .error e => .error (.cas e)
    | .ok r => .ok r

/-- Uppercase hexadecimal digit, as used by `urllib.parse.quote`. -/
def toHexDigit (n : Nat) : Char :=
  if n < 10 then Char.ofNat (48 + n) else Char.ofNat (55 + n)

/-- The UTF-8 encoding of a character, as byte values. -/
def utf8Bytes (c : Char) : List Nat :=
  let n := c.toNat
  if n < 128 then [n]
  else if n < 2048 then [192 + n / 64, 128 + n % 64]
  else if n < 65536 then [224 + n / 4096, 128 + (n / 64) % 64, 128 + n % 64]
  else [240 + n / 262144, 128 + (n / 4096) % 64, 128 + (n / 64) % 64, 128 + n % 64]

/-- The characters `urllib.parse.quote_plus` never escapes: ASCII letters,
digits and `_.-~`. -/
def isQuoteSafe (c : Char) : Bool :=
  (('a' ≤ c && c ≤ 'z') || ('A' ≤ c && c ≤ 'Z') || ('0' ≤ c && c ≤ '9')
    || c == '_' || c == '.' || c == '-' || c == '~')

/-- `urllib.parse.quote_plus` on one character: safe characters pass through,
space becomes `+`, everything else is percent-encoded byte by byte. -/
def quoteChar (c : Char) : List Char :=
  if isQuoteSafe c then [c]
  else if c == ' ' then ['+']
  else ((utf8Bytes c).map (fun b => ['%', toHexDigit (b / 16), toHexDigit (b % 16)])).flatten

/-- `urllib.parse.quote_plus` on a string. -/
def quote_plus (s : String) : String :=
  String.mk ((s.data.map quoteChar).flatten)

/-- `urllib.parse.urlencode` over the key–value pairs in iteration order:
`quote_plus`-escaped `k=v` fragments joined with `&`. -/
def urlencode : List (String × String) → String
  | [] => ""
  | (k, v) :: rest =>
    match rest with
    | [] => quote_plus k ++ "=" ++ quote_plus v
    | _ => quote_plus k ++ "=" ++ quote_plus v ++ "&" ++ urlencode rest

/-- `_build_service_param` (lines 60–75): service base URL, the fixed ticket
callback path, `?`, and the URL-encoded arguments. -/
def build_service_param (cfg : CasConfig) (args : List (String × String)) : String :=
  cfg.cas_service_url ++ "/_matrix/client/r0/login/cas/ticket" ++ "?" ++ urlencode args

/-- `get_redirect_url` (lines 160–174). -/
def get_redirect_url (cfg : CasConfig) (args : List (String × String)) : String :=
  cfg.cas_server_url ++ "/login?" ++ urlencode [("service", build_service_param cfg args)]

/-- Modelled from the spec: `map_username_to_mxid_localpart` lives in
`synapse.types`, outside this repository's source; the spec describes it as a
fixed normalization mapping an arbitrary username to a safe local-identifier
fragment, with `Alice ↦ alice`.  Modelled as ASCII lowercasing. -/
def map_username_to_mxid_localpart (s : String) : String :=
  String.mk (s.data.map Char.toLower)

/-- `UserID(localpart, domain).to_string()`: the `@localpart:domain` form. -/
def userIdToString (localpart domain : String) : String :=
  "@" ++ localpart ++ ":" ++ domain

/-- `grandfather_existing_users` (lines 275–292).  The identity store is the
external collaborator `get_users_by_id_case_insensitive`, modelled as a
function from the queried user id to the (insertion-ordered) keys of the
returned mapping; `list(users.keys())[0]` is the head of that list. -/
def grandfather_existing_users (store : String → List String)
    (hostname remote_user_id : String) : Option String :=
  let user_id := userIdToString (map_username_to_mxid_localpart remote_user_id) hostname
  match store user_id with
  | [] => none
  | u :: _ => some u

/-- A store holding exactly the legacy account `@Alice:example.org`, matching
queries case-insensitively (the contract of
`get_users_by_id_case_insensitive`). -/
def aliceStore (query : String) : List String :=
  if String.mk (query.data.map Char.toLower) == "@alice:example.org"
  then ["@Alice:example.org"] else []

/-- The fatal, non-recoverable error of the attribute provider: Python
`RuntimeError`. -/
inductive FatalError where
  | runtimeError (msg : String)
deriving DecidableEq

/-- The result of the attribute-provider callback. -/
structure UserAttributes where
  localpart : String
  display_name : Option String
deriving DecidableEq

/-- `cas_response_to_user_attributes` (lines 262–273): the callback handed to
the SSO orchestrator; a truthy (nonzero) failure count raises `RuntimeError`,
otherwise the normalized localpart and the extracted display name are
returned. -/
def cas_response_to_user_attributes (remote_user_id : String)
    (display_name : Option String) (failures : Nat) : Except FatalError UserAttributes :=
  let localpart := map_username_to_mxid_localpart remote_user_id
  if failures ≠ 0 then
    .error (.runtimeError "CAS is not expected to de-duplicate Matrix IDs")
  else .ok ⟨localpart, display_name⟩

/-- Python truthiness of an `Optional[str]`: `None` and the empty string are
falsy. -/
def truthy : Option String → Bool
  | none => false
  | some s => !(s == "")

/-- Where `handle_ticket` hands off after a successful mapping. -/
inductive HandleOutcome where
  | uiAuthCompleted (user_id session : String)
  | ssoLoginCompleted (user_id redirect : String)
  | assertionFailed
deriving DecidableEq

/-- The dispatch stage of `handle_ticket` (lines 227–237), applied to a
successfully mapped user id: a truthy `session` completes UI auth; otherwise
`assert client_redirect_url` must pass before `complete_sso_login` is called
with that redirect URL. -/
def dispatch (user_id : String) (client_redirect_url session : Option String) :
    HandleOutcome :=
  if truthy session then .uiAuthCompleted user_id (session.getD "")
  else if truthy client_redirect_url then
    .ssoLoginCompleted user_id (client_redirect_url.getD "")
  else .assertionFailed

/-- `splitOnChar` never returns the empty list of fragments. -/
theorem splitOnChar_ne_nil (c : Char) (cs : List Char) : splitOnChar c cs ≠ [] := by
  cases cs with
  | nil => simp [splitOnChar]
  | cons x xs =>
    simp only [splitOnChar]
    cases splitOnChar c xs with
    | nil => simp
    | cons r rs => by_cases h : x == c <;> simp [h]

/-- Unfolding characterization of `splitOnChar`: the first fragment is the
longest separator-free first segment, and the remaining fragments are the split
of what follows the first separator. -/
theorem splitOnChar_eq (c : Char) (cs : List Char) :
    splitOnChar c cs =
      cs.takeWhile (fun d => d != c) ::
        (if cs.contains c then splitOnChar c ((cs.dropWhile (fun d => d != c)).drop 1)
         else []) := by
  induction cs with
  | nil => simp [splitOnChar]
  | cons x xs ih =>
    simp only [splitOnChar, ih]
    by_cases h : x == c
    · have hx : x = c := by simpa using h
      subst hx
      simp [List.takeWhile_cons, List.dropWhile_cons, List.contains_cons, ih]
    · have hx : ¬(x = c) := by simpa using h
      have hx2 : ¬(c = x) := fun hc => hx hc.symm
      simp [List.takeWhile_cons, List.dropWhile_cons, List.contains_cons, h, hx, hx2, ih]

/-- When the tag contains `'}'`, `tag.split("}")[1]` is the segment strictly
between the first `'}'` and the next `'}'` (or the end of the string). -/
theorem stripTagChars_of_contains (cs : List Char) (h : cs.contains '}' = true) :
    stripTagChars cs =
      ((cs.dropWhile (fun d => d != '}')).drop 1).takeWhile (fun d => d != '}') := by
  unfold stripTagChars
  rw [splitOnChar_eq]
  simp only [h, if_true]
  rw [splitOnChar_eq '}' ((cs.dropWhile (fun d => d != '}')).drop 1)]
  rfl

/-- C2, counterexample: on the tag `a}b}c` the code stores the segment after
the FIRST `}` (`"b"`), not the substring after the last `}` (`"c"`) that the
claim describes. -/
theorem c2_counterexample :
    stripTag "a\x7db\x7dc" = "b" ∧ localNameAfterLastBrace "a\x7db\x7dc" = "c" ∧
      stripTag "a\x7db\x7dc" ≠ localNameAfterLastBrace "a\x7db\x7dc" :=
  ⟨rfl, rfl, by decide⟩

/-- C2 (amended): the namespace-stripping in `_parse_cas_response` is a pure
total string function; a tag without `}` is kept whole, and a tag containing
`}` is replaced by the segment strictly between the first `}` and the next `}`
(or end of string); in particular `{http://example.org}department` is
normalized to `department`. -/
theorem c2_strip_after_first_brace :
    (∀ tag : String, containsChar '}' tag = false → stripTag tag = tag) ∧
    (∀ tag : String, containsChar '}' tag = true →
      (stripTag tag).data =
        ((tag.data.dropWhile (fun d => d != '}')).drop 1).takeWhile (fun d => d != '}')) ∧
    stripTag "{http://example.org}department" = "department" := by
  refine ⟨?_, ?_, rfl⟩
  · intro tag h
    have h' : tag.data.contains '}' = false := h
    unfold stripTag stripTagChars
    rw [h']
    simp only [Bool.false_eq_true, if_false]
  · intro tag h
    have h' : tag.data.contains '}' = true := h
    unfold stripTag
    rw [stripTagChars_of_contains tag.data h']

/-- C2 witness: the amended characterization evaluated on the namespaced tag
from the spec's example. -/
theorem c2_strip_after_first_brace_witness :
    (stripTag "{http://example.org}department").data =
      (("{http://example.org}department".data.dropWhile (fun d => d != '}')).drop 1).takeWhile
        (fun d => d != '}') :=
  c2_strip_after_first_brace.2.1 "{http://example.org}department" (by decide)

/-- After `d.pop(k, None)`, the key `k` is no longer in the dictionary. -/
theorem dictGet?_pop_self (m : AttrMap) (k : String) : dictGet? (dictPop m k).2 k = none := by
  unfold dictPop
  cases hm : dictGet? m k with
  | none => exact hm
  | some v =>
    simp only [dictGet?, Option.map_eq_none']
    rw [List.find?_eq_none]
    intro x hx
    have hq := (List.mem_filter.mp hx).2
    simpa using hq

/-- A configuration whose display-name attribute `name` is also a required
attribute (presence-only). -/
def cfgC1 : CasConfig :=
  ⟨"https://cas.example", "https://hs.example", "name", [("name", none)]⟩

/-- A successful CAS response for `alice` that carries the attribute
`name = "Alice"`. -/
def treeC1 : Xml :=
  .elem "serviceResponse" none
    [.elem "authenticationSuccess" none
      [.elem "user" (some "alice") [],
       .elem "attributes" none [.elem "name" (some "Alice") []]]]

/-- C1, counterexample: with the display-name attribute also required and
present in the response, the code raises 401 Unauthorized, while the snapshot
semantics the claim describes would succeed — the required-attribute checks run
on the post-pop map, not on a snapshot. -/
theorem c1_counterexample :
    validateFromBody cfgC1 (some treeC1) = .error .unauthorized ∧
      validateFromBodySpecSnapshot cfgC1 (some treeC1) = .ok ("alice", some "Alice") :=
  ⟨rfl, rfl⟩

/-- C1 (amended): the display-name attribute is popped before the
required-attribute loop, and the loop runs on the popped map; hence whenever
the configured display-name attribute appears among the required attributes,
every parse-accepted response fails with 401 Unauthorized. -/
theorem c1_required_check_on_popped_map (cfg : CasConfig) (root : Xml)
    (user : String) (attrs : AttrMap)
    (hp : parse_cas_response root = .ok (user, attrs))
    (rv : Option String)
    (hreq : (cfg.cas_displayname_attribute, rv) ∈ cfg.cas_required_attributes) :
    validateFromBody cfg (some root) = .error .unauthorized := by
  have hfail : checkRequired cfg.cas_required_attributes
      (dictPop attrs cfg.cas_displayname_attribute).2 = false := by
    unfold checkRequired
    rw [List.all_eq_false]
    refine ⟨(cfg.cas_displayname_attribute, rv), hreq, ?_⟩
    simp [requiredAttributeOk, dictGet?_pop_self]
  simp [validateFromBody, hp, hfail]

/-- C1 witness: the amended theorem evaluated on the concrete configuration and
response above. -/
theorem c1_required_check_on_popped_map_witness :
    validateFromBody cfgC1 (some treeC1) = .error .unauthorized :=
  c1_required_check_on_popped_map cfgC1 treeC1 "alice" [("name", some "Alice")] rfl none
    (by decide)

/-- C3: the required-attribute loop of `_validate_ticket` fails (raises 401
Unauthorized) iff some required attribute is absent from the attribute map it
checks, or is present while the non-null expected value differs from the stored
value; presence-only entries (null expected value) succeed for any stored
value.  After a successful parse, `_validate_ticket` raises 401 Unauthorized
exactly when that loop fails on the (post-display-name-pop) attribute map. -/
theorem c3_required_attribute_policy :
    (∀ (policy : List (String × Option String)) (attrs : AttrMap),
      checkRequired policy attrs = false ↔
        ∃ p ∈ policy, dictGet? attrs p.1 = none ∨
          ∃ r actual, p.2 = some r ∧ dictGet? attrs p.1 = some actual ∧ actual ≠ some r) ∧
    (∀ (cfg : CasConfig) (root : Xml) (user : String) (attrs : AttrMap),
      parse_cas_response root = .ok (user, attrs) →
        (validateFromBody cfg (some root) = .error .unauthorized ↔
          checkRequired cfg.cas_required_attributes
            (dictPop attrs cfg.cas_displayname_attribute).2 = false)) := by
  constructor
  · intro policy attrs
    unfold checkRequired
    rw [List.all_eq_false]
    constructor
    · rintro ⟨p, hp, hfail⟩
      refine ⟨p, hp, ?_⟩
      revert hfail
      unfold requiredAttributeOk
      cases hg : dictGet? attrs p.1 with
      | none => intro _; exact Or.inl rfl
      | some actual =>
        cases hr : p.2 with
        | none => intro hfail; simp at hfail
        | some r =>
          intro hfail
          refine Or.inr ⟨r, actual, rfl, rfl, ?_⟩
          simpa using hfail
    · rintro ⟨p, hp, hviol⟩
      refine ⟨p, hp, ?_⟩
      unfold requiredAttributeOk
      rcases hviol with hnone | ⟨r, actual, hr, hact, hne⟩
      · rw [hnone]
        simp
      · rw [hact, hr]
        simpa using hne
  · intro cfg root user attrs hp
    cases hc : checkRequired cfg.cas_required_attributes
        (dictPop attrs cfg.cas_displayname_attribute).2 <;>
      simp [validateFromBody, hp, hc]

/-- A configuration requiring `department = "eng"`, with display-name attribute
`displayName`. -/
def cfgC3 : CasConfig :=
  ⟨"https://cas.example", "https://hs.example", "displayName",
    [("department", some "eng")]⟩

/-- A successful CAS response for `alice` with `department = "eng"` and
`displayName = "Alice A"`. -/
def treeC3 : Xml :=
  .elem "serviceResponse" none
    [.elem "authenticationSuccess" none
      [.elem "user" (some "alice") [],
       .elem "attributes" none
        [.elem "department" (some "eng") [],
         .elem "displayName" (some "Alice A") []]]]

/-- C3 witness: the post-parse equivalence evaluated on a concrete
configuration and response. -/
theorem c3_required_attribute_policy_witness :
    validateFromBody cfgC3 (some treeC3) = .error .unauthorized ↔
      checkRequired cfgC3.cas_required_attributes
        (dictPop [("department", some "eng"), ("displayName", some "Alice A")]
          cfgC3.cas_displayname_attribute).2 = false :=
  c3_required_attribute_policy.2 cfgC3 treeC3 "alice"
    [("department", some "eng"), ("displayName", some "Alice A")] rfl

/-- A root tagged `XserviceResponse`: its local name (there is no namespace
wrapper) is not `serviceResponse`, but it does end in `serviceResponse`. -/
def xServiceRoot : Xml :=
  .elem "XserviceResponse" none
    [.elem "authenticationSuccess" none [.elem "user" (some "alice") []]]

/-- The spec's failing example: root tag `somethingElse`. -/
def somethingElseRoot : Xml :=
  .elem "somethingElse" none
    [.elem "authenticationSuccess" none [.elem "user" (some "alice") []]]

/-- The spec's succeeding example: a namespaced `serviceResponse` root with an
`authenticationSuccess` child containing `<user>alice</user>`. -/
def nsSuccessRoot : Xml :=
  .elem "{http://www.yale.edu/tp/cas}serviceResponse" none
    [.elem "{http://www.yale.edu/tp/cas}authenticationSuccess" none
      [.elem "{http://www.yale.edu/tp/cas}user" (some "alice") []]]

/-- C4, counterexample: the code only checks that the root tag ENDS in
`serviceResponse`; a root tagged `XserviceResponse`, whose local name is not
`serviceResponse`, is accepted rather than rejected as the claim states. -/
theorem c4_counterexample :
    parse_cas_response xServiceRoot = .ok ("alice", []) ∧
      localNameAfterLastBrace "XserviceResponse" = "XserviceResponse" ∧
      ("XserviceResponse" : String) ≠ "serviceResponse" :=
  ⟨rfl, rfl, by decide⟩

/-- C4 (amended): `_parse_cas_response` fails with invalid-response whenever
the root tag does not end in `serviceResponse`; in particular a root tagged
`somethingElse` fails, while a namespaced root ending in `serviceResponse`
with an `authenticationSuccess` child containing `<user>alice</user>` yields
the user `alice`. -/
theorem c4_root_tag_suffix_check :
    (∀ root : Xml, endswith root.tag "serviceResponse" = false →
      parse_cas_response root = .error .invalidResponse) ∧
    parse_cas_response somethingElseRoot = .error .invalidResponse ∧
    parse_cas_response nsSuccessRoot = .ok ("alice", []) := by
  refine ⟨?_, rfl, rfl⟩
  intro root h
  simp [parse_cas_response, h]

/-- C4 witness: the suffix check evaluated on the `somethingElse` root. -/
theorem c4_root_tag_suffix_check_witness :
    parse_cas_response somethingElseRoot = .error .invalidResponse :=
  c4_root_tag_suffix_check.1 somethingElseRoot (by decide)

/-- C5: for a well-formed `serviceResponse` whose first child is not
`authenticationSuccess`, the parser reports "Unsuccessful CAS response" when a
user was found — even though the response is unsuccessful — and the
missing-user invalid-response error wins when no user was found, because the
success test runs only after the user check. -/
theorem c5_unsuccessful_after_user_check (root first : Xml) (rest : List Xml)
    (hch : root.children = first :: rest)
    (hroot : endswith root.tag "serviceResponse" = true)
    (hfail : endswith first.tag "authenticationSuccess" = false) :
    (∀ u : String, (first.children.foldl scanChild (none, [])).1 = some u →
        parse_cas_response root = .error .unsuccessful) ∧
      ((first.children.foldl scanChild (none, [])).1 = none →
        parse_cas_response root = .error .invalidResponse) := by
  constructor
  · intro u hu
    simp [parse_cas_response, hroot, hch, hfail, hu]
  · intro hu
    simp [parse_cas_response, hroot, hch, hu]

/-- An `authenticationFailure` block that nevertheless carries a user. -/
def failureChild : Xml :=
  .elem "authenticationFailure" none [.elem "user" (some "alice") []]

/-- A well-formed but unsuccessful CAS response carrying a user element. -/
def failureRoot : Xml := .elem "serviceResponse" none [failureChild]

/-- C5 witness: an unsuccessful response with a present user element is
reported as "Unsuccessful CAS response". -/
theorem c5_unsuccessful_after_user_check_witness :
    parse_cas_response failureRoot = .error .unsuccessful :=
  (c5_unsuccessful_after_user_check failureRoot failureChild [] rfl (by decide)
    (by decide)).1 "alice" rfl

/-- Strings with equal character lists are equal. -/
theorem stringDataInj (s t : String) (h : s.data = t.data) : s = t := by
  cases s
  cases t
  exact congrArg String.mk h

/-- C6: `_build_service_param` is a pure deterministic function of the
configuration and its arguments — equal argument lists give byte-identical
strings — and `get_redirect_url` composes exactly
`{casServerUrl}/login?service={urlencode(buildServiceParam(args))}`. -/
theorem c6_service_param_pure (cfg : CasConfig) (args1 args2 : List (String × String))
    (h : args1 = args2) :
    build_service_param cfg args1 = build_service_param cfg args2 ∧
      get_redirect_url cfg args1 =
        cfg.cas_server_url ++ "/login?service=" ++
          quote_plus (build_service_param cfg args1) := by
  subst h
  refine ⟨rfl, ?_⟩
  show cfg.cas_server_url ++ "/login?" ++
      (quote_plus "service" ++ "=" ++ quote_plus (build_service_param cfg args1)) =
    cfg.cas_server_url ++ "/login?service=" ++ quote_plus (build_service_param cfg args1)
  have hs : quote_plus "service" = "service" := rfl
  rw [hs]
  apply stringDataInj
  show cfg.cas_server_url.data ++ "/login?".data ++
      ("service".data ++ "=".data ++ (quote_plus (build_service_param cfg args1)).data) =
    cfg.cas_server_url.data ++ "/login?service=".data ++
      (quote_plus (build_service_param cfg args1)).data
  simp

/-- A concrete configuration for the URL-builder witness. -/
def cfgC6 : CasConfig :=
  ⟨"https://cas.example", "https://hs.example", "displayName", []⟩

/-- C6 witness: determinism and the redirect-URL composition evaluated on a
concrete configuration and argument list. -/
theorem c6_service_param_pure_witness :
    build_service_param cfgC6 [("redirectUrl", "https://client.example/cb")] =
        build_service_param cfgC6 [("redirectUrl", "https://client.example/cb")] ∧
      get_redirect_url cfgC6 [("redirectUrl", "https://client.example/cb")] =
        cfgC6.cas_server_url ++ "/login?service=" ++
          quote_plus (build_service_param cfgC6 [("redirectUrl", "https://client.example/cb")]) :=
  c6_service_param_pure cfgC6 [("redirectUrl", "https://client.example/cb")]
    [("redirectUrl", "https://client.example/cb")] rfl

/-- C7: when the GET ends in the early-close condition, the body carried by the
error is parsed exactly as if the read had succeeded, and every other transport
failure propagates out of `_validate_ticket` unhandled. -/
theorem c7_early_close_body_used :
    (∀ (cfg : CasConfig) (b : Option Xml),
      validate_ticket cfg (.closedEarly b) = validate_ticket cfg (.success b)) ∧
    (∀ (cfg : CasConfig) (e : Nat),
      validate_ticket cfg (.transportFailure e) = .error (.transport e)) :=
  ⟨fun _ _ => rfl, fun _ _ => rfl⟩

/-- C8: the grandfathering lookup queries the store for
`@{normalized remote username}:{hostname}` and returns the first stored match,
or nothing when there is none; with a case-insensitive store holding
`@Alice:example.org`, the remote username `Alice` maps to that stored id. -/
theorem c8_grandfather_first_match :
    (∀ (store : String → List String) (hostname remote : String),
      grandfather_existing_users store hostname remote =
        (store (userIdToString (map_username_to_mxid_localpart remote) hostname)).head?) ∧
    grandfather_existing_users aliceStore "example.org" "Alice" =
        some "@Alice:example.org" ∧
    grandfather_existing_users aliceStore "example.org" "Bob" = none := by
  refine ⟨?_, rfl, rfl⟩
  intro store hostname remote
  cases hs : store (userIdToString (map_username_to_mxid_localpart remote) hostname) <;>
    simp [grandfather_existing_users, hs]

/-- C9: the attribute-provider callback raises the fatal `RuntimeError`
whenever the failure count is nonzero, and on failure count zero returns the
normalized localpart with the extracted display name. -/
theorem c9_attribute_provider_fails_hard (remote : String) (dn : Option String)
    (failures : Nat) :
    (failures ≠ 0 → cas_response_to_user_attributes remote dn failures =
        .error (.runtimeError "CAS is not expected to de-duplicate Matrix IDs")) ∧
      (failures = 0 → cas_response_to_user_attributes remote dn failures =
        .ok ⟨map_username_to_mxid_localpart remote, dn⟩) := by
  constructor <;> intro h <;> simp [cas_response_to_user_attributes, h]

/-- C9 witness: failure count 1 is fatal, failure count 0 yields the
attributes. -/
theorem c9_attribute_provider_fails_hard_witness :
    cas_response_to_user_attributes "Alice" (some "Bob B") 1 =
        .error (.runtimeError "CAS is not expected to de-duplicate Matrix IDs") ∧
      cas_response_to_user_attributes "Alice" (some "Bob B") 0 =
        .ok ⟨"alice", some "Bob B"⟩ :=
  ⟨(c9_attribute_provider_fails_hard "Alice" (some "Bob B") 1).1 (by decide),
   (c9_attribute_provider_fails_hard "Alice" (some "Bob B") 0).2 rfl⟩

/-- C10: with no UI-auth session and a non-empty redirect URL, the assertion
passes and `complete_sso_login` is called with that URL; with neither a session
nor a truthy redirect URL, the assertion fails instead of dispatching. -/
theorem c10_dispatch_assertion (user_id : String) :
    (∀ r : String, r ≠ "" →
        dispatch user_id (some r) none = .ssoLoginCompleted user_id r) ∧
      (∀ cru : Option String, truthy cru = false →
        dispatch user_id cru none = .assertionFailed) := by
  constructor
  · intro r hr
    simp [dispatch, truthy, hr]
  · intro cru h
    have hn : truthy none = false := rfl
    simp [dispatch, hn, h]

/-- C10 witness: the two dispatch outcomes at concrete inputs. -/
theorem c10_dispatch_assertion_witness :
    dispatch "@bob:hs.example" (some "https://client.example/cb") none =
        .ssoLoginCompleted "@bob:hs.example" "https://client.example/cb" ∧
      dispatch "@bob:hs.example" none none = .assertionFailed :=
  ⟨(c10_dispatch_assertion "@bob:hs.example").1 "https://client.example/cb" (by decide),
   (c10_dispatch_assertion "@bob:hs.example").2 none rfl⟩
